import Mathlib

set_option autoImplicit false

/-!
Shallow embedding of the Windows tty bridge of alacritty:
`alacritty_terminal/src/tty/windows/child.rs` (child-exit watcher) and
`alacritty_terminal/src/tty/windows/blocking.rs` (unblocked reader/writer
worker threads over a bounded pipe).  Pure data is translated directly;
the effects of the worker loops (completion packets posted, log lines,
thread fate) are made explicit as return values, and the OS facilities the
code calls into (one-shot waits, the piper pipe) are modelled where their
sources are external.
-/

namespace Alacritty

/-- Readiness event of the `polling` multiplexer: a key (opaque token) plus
direction flags, as consumed by blocking.rs and child.rs. -/
structure Event where
  key : Nat
  readable : Bool
  writable : Bool
deriving DecidableEq, Repr

/-- Constructor `Event::readable(key)` of the polling crate: a readable
event with the given key. -/
def readableEvent (key : Nat) : Event :=
  { key := key, readable := true, writable := false }

/-- Constructor `Event::writable(key)` of the polling crate: a writable
event with the given key. -/
def writableEvent (key : Nat) : Event :=
  { key := key, readable := false, writable := true }

/-- A `CompletionPacket` of the polling crate wraps the event that is posted
directly into the IOCP queue. -/
structure CompletionPacket where
  event : Event
deriving DecidableEq, Repr

/-- Child process event forwarded on the watcher's channel; the only variant
used by child.rs is `Exited`. -/
inductive ChildEvent where
  | Exited
deriving DecidableEq, Repr

/-- Modelled from the spec: `PTY_CHILD_EVENT_TOKEN` is declared in the
`tty/windows` module, which is not among the sources at hand; the spec fixes
it as "a fixed token reserved for child-exit events".  Its concrete value is
irrelevant to the claims, only that it is one fixed constant. -/
def PTY_CHILD_EVENT_TOKEN : Nat := 1

/-- Flag `WT_EXECUTEINWAITTHREAD` of the Win32 thread-pool wait API. -/
def WT_EXECUTEINWAITTHREAD : Nat := 4

/-- Flag `WT_EXECUTEONLYONCE` of the Win32 thread-pool wait API: the wait is
deregistered after its callback has run once. -/
def WT_EXECUTEONLYONCE : Nat := 8

/-- Context handed to the OS wait callback (struct `ChildExitSender`,
child.rs lines 18-22): the sending half of the watcher's channel (identified
here by the poller it posts to) together with the prepared completion
packet. -/
structure ChildExitSender where
  poller : Nat
  packet : CompletionPacket
deriving DecidableEq, Repr

/-- Shallow embedding of `child_exit_callback` (child.rs lines 25-33): given
the context and the `timed_out` flag, return the pair of (channel events
sent, completion packets posted).  A nonzero `timed_out` returns immediately
with no effect; otherwise one `Exited` event is sent and the context's
packet is posted. -/
def child_exit_callback (ctx : ChildExitSender) (timed_out : Nat) :
    List ChildEvent × List CompletionPacket :=
  if timed_out ≠ 0 then ([], [])
  else ([ChildEvent.Exited], [ctx.packet])

/-- Resource-creating actions performed by `ChildExitWatcher::new`, in
program order, used to state what exists after a failing call. -/
inductive WatcherAction where
  | createChannel
  | registerWait (flags : Nat)
  | spawnThread
deriving DecidableEq, Repr

/-- The watcher handle returned on success (struct `ChildExitWatcher`,
child.rs lines 35-38); the receiver half of the channel is kept abstract. -/
structure ChildExitWatcher where
  wait_handle : Nat
deriving DecidableEq, Repr

/-- Shallow embedding of `ChildExitWatcher::new` (child.rs lines 41-70).
The call first creates the mpsc channel, then builds the sender context with
the packet `Event::readable(PTY_CHILD_EVENT_TOKEN)`, then registers a
one-shot wait with flags `WT_EXECUTEINWAITTHREAD | WT_EXECUTEONLYONCE`;
`regOk` tells whether `RegisterWaitForSingleObject` succeeds.  On failure
the last OS error is returned; on success the watcher and the registered
sender context are returned.  The action trace records, in order, every
resource-creating step the call performs; `new` never spawns a thread. -/
def ChildExitWatcher.new (poller : Nat) (child_handle : Nat) (regOk : Bool) :
    Except String (ChildExitWatcher × ChildExitSender) × List WatcherAction :=
  let sender : ChildExitSender :=
    { poller := poller, packet := { event := readableEvent PTY_CHILD_EVENT_TOKEN } }
  let actions :=
    [WatcherAction.createChannel,
     WatcherAction.registerWait (WT_EXECUTEINWAITTHREAD ||| WT_EXECUTEONLYONCE)]
  if regOk then
    (Except.ok ({ wait_handle := child_handle }, sender), actions)
  else
    (Except.error "last_os_error", actions)

/-- OS semantics of `RegisterWaitForSingleObject`: when the registration
carries `WT_EXECUTEONLYONCE`, the callback is invoked at most once no matter
how often the waited handle is signalled; without it, once per signal while
registered. -/
def osInvocations (flags : Nat) (signals : Nat) : Nat :=
  if flags &&& WT_EXECUTEONLYONCE ≠ 0 then min signals 1 else signals

/-- Observable effects over a watcher's registration lifetime: the callback
fires `osInvocations flags signals` times, each time with `timed_out = 0`
(the wait is registered with an INFINITE timeout, so the OS never reports a
timeout), and the effects of all firings are concatenated in order. -/
def watcherEffects (sender : ChildExitSender) (flags : Nat) (signals : Nat) :
    List ChildEvent × List CompletionPacket :=
  let fires := osInvocations flags signals
  ((List.replicate fires (child_exit_callback sender 0).1).flatten,
   (List.replicate fires (child_exit_callback sender 0).2).flatten)

/-- Claim C1: a watched child that is killed at least once while registered
produces, over the whole registration lifetime, exactly one `Exited` event
on the channel and exactly one completion packet carrying the reserved
child-exit token; further kill signals add nothing, because `new` registers
the wait with `WT_EXECUTEONLYONCE`. -/
theorem childExit_single_event_and_packet
    (poller child_handle signals : Nat) (w : ChildExitWatcher)
    (s : ChildExitSender)
    (hsig : 1 ≤ signals)
    (hnew : (ChildExitWatcher.new poller child_handle true).1 = Except.ok (w, s)) :
    WatcherAction.registerWait (WT_EXECUTEINWAITTHREAD ||| WT_EXECUTEONLYONCE) ∈
      (ChildExitWatcher.new poller child_handle true).2 ∧
    watcherEffects s (WT_EXECUTEINWAITTHREAD ||| WT_EXECUTEONLYONCE) signals =
      ([ChildEvent.Exited],
       [{ event := readableEvent PTY_CHILD_EVENT_TOKEN }]) := by
  simp [ChildExitWatcher.new] at hnew
  constructor
  · simp [ChildExitWatcher.new]
  · obtain ⟨n, rfl⟩ := Nat.exists_eq_add_of_le hsig
    have hfires : osInvocations (WT_EXECUTEINWAITTHREAD ||| WT_EXECUTEONLYONCE) (1 + n) = 1 := by
      unfold osInvocations
      rw [if_pos (by decide :
        (WT_EXECUTEINWAITTHREAD ||| WT_EXECUTEONLYONCE) &&& WT_EXECUTEONLYONCE ≠ 0)]
      omega
    simp [watcherEffects, hfires, child_exit_callback, ← hnew.2]

/-- Witness for C1 at a concrete input: two kill signals still yield exactly
one event and one packet. -/
theorem childExit_single_event_and_packet_witness :
    WatcherAction.registerWait (WT_EXECUTEINWAITTHREAD ||| WT_EXECUTEONLYONCE) ∈
      (ChildExitWatcher.new 0 7 true).2 ∧
    watcherEffects
        { poller := 0, packet := { event := readableEvent PTY_CHILD_EVENT_TOKEN } }
        (WT_EXECUTEINWAITTHREAD ||| WT_EXECUTEONLYONCE) 2 =
      ([ChildEvent.Exited],
       [{ event := readableEvent PTY_CHILD_EVENT_TOKEN }]) :=
  childExit_single_event_and_packet 0 7 2 { wait_handle := 7 }
    { poller := 0, packet := { event := readableEvent PTY_CHILD_EVENT_TOKEN } }
    (by decide) rfl

/-- Claim C10: invoked with a nonzero `timed_out` flag, the child-exit
callback returns immediately: no channel event is sent and no completion
packet is posted. -/
theorem callback_timeout_noop (ctx : ChildExitSender) (t : Nat) (ht : t ≠ 0) :
    child_exit_callback ctx t = ([], []) := by
  simp [child_exit_callback, ht]

/-- Witness for C10 at a concrete input. -/
theorem callback_timeout_noop_witness :
    child_exit_callback
        { poller := 0, packet := { event := readableEvent PTY_CHILD_EVENT_TOKEN } } 1 =
      ([], []) :=
  callback_timeout_noop
    { poller := 0, packet := { event := readableEvent PTY_CHILD_EVENT_TOKEN } } 1
    (by decide)

/-- Counterexample to claim C6 as stated: even when registration fails
(`regOk = false`), `ChildExitWatcher::new` has already created the mpsc
channel (child.rs line 42 runs before the registration attempt), so "no
thread or channel is created" is false on the failing path. -/
theorem watcher_new_failure_creates_channel :
    WatcherAction.createChannel ∈ (ChildExitWatcher.new 0 0 false).2 := by
  decide

/-- Fate of a resource created by `ChildExitWatcher::new` once the call has
returned. -/
inductive ResourceFate where
  | heldByWatcher
  | ownedByRegistration
  | droppedWithCall
  | leaked
deriving DecidableEq, Repr

/-- Fates of the two halves of the watcher's channel after `new`, for each
registration outcome, traced from the control flow of child.rs lines 41-70:
the sender half lives in the `ChildExitSender` box whose ownership is given
away by `Box::into_raw` at line 56, before the registration's outcome is
known — on success the registration owns it (the callback reclaims it with
`Box::from_raw` at line 30), on failure the error arm at line 63 returns
without ever reclaiming it, so it is leaked, not dropped.  The receiver
half is moved into the returned watcher on success and dropped with the
call's scope on failure.  Returned pair: (sender fate, receiver fate). -/
def channelFates (regOk : Bool) : ResourceFate × ResourceFate :=
  if regOk then (ResourceFate.ownedByRegistration, ResourceFate.heldByWatcher)
  else (ResourceFate.leaked, ResourceFate.droppedWithCall)

/-- Claim C6 amended: when the OS rejects the registration, `new` returns an
error synchronously, no thread is ever spawned, and the error result carries
no watcher — no watcher object, partial or otherwise, is returned to the
caller.  The channel created before the registration attempt does not
survive as part of any watcher: its receiver half is dropped with the
failing call, while its sender half, inside the boxed `ChildExitSender`
handed to the OS via `Box::into_raw`, is leaked — never reclaimed. -/
theorem watcher_new_failure_no_partial_watcher (poller child_handle : Nat) :
    (ChildExitWatcher.new poller child_handle false).1 = Except.error "last_os_error" ∧
    WatcherAction.spawnThread ∉ (ChildExitWatcher.new poller child_handle false).2 ∧
    channelFates false = (ResourceFate.leaked, ResourceFate.droppedWithCall) := by
  refine ⟨?_, ?_, ?_⟩
  · simp [ChildExitWatcher.new]
  · simp [ChildExitWatcher.new]
  · simp [channelFates]

/-- Modelled from the spec: the Bounded Channel, i.e. the `piper` pipe used
by blocking.rs (the piper crate is external to these sources).  A
fixed-capacity FIFO byte buffer; bytes are `Nat` values, the capacity is
fixed at construction and `buf` holds the buffered bytes in arrival
order. -/
structure Pipe where
  cap : Nat
  buf : List Nat
deriving DecidableEq, Repr

/-- Modelled from the spec: `Reader::try_drain` — move up to `bufsize`
already-buffered bytes out of the pipe, in FIFO order, returning the new
pipe state and the bytes moved; never blocks, moves zero bytes when the
pipe is empty. -/
def Pipe.try_drain (p : Pipe) (bufsize : Nat) : Pipe × List Nat :=
  ({ cap := p.cap, buf := p.buf.drop bufsize }, p.buf.take bufsize)

/-- Modelled from the spec: `Writer::try_fill` — buffer as many of the given
bytes as capacity allows, returning the new pipe state and the count
actually buffered; never blocks, buffers zero bytes when the pipe is
full. -/
def Pipe.try_fill (p : Pipe) (input : List Nat) : Pipe × Nat :=
  let n := min (p.cap - p.buf.length) input.length
  ({ cap := p.cap, buf := p.buf ++ input.take n }, n)

/-- Behaviour of the blocking byte source driven by the reader worker: each
completed blocking `read` either yields a chunk of bytes, or fails with an
interrupted error, or fails with some other error; once the list is
exhausted the source is at end-of-stream (`read` returns `Ok(0)` forever).
A `chunk []` likewise models a `read` returning `Ok(0)`. -/
inductive SourceItem where
  | chunk (bytes : List Nat)
  | interrupted
  | fatal (msg : String)
deriving DecidableEq, Repr

/-- Behaviour of the blocking byte sink driven by the writer worker: each
completed blocking `write` accepts up to `n` bytes (`accepts 0` models a
sink that accepts nothing, i.e. `Ok(0)`), or fails interrupted, or fails
with another error; an exhausted list behaves as `Ok(0)`. -/
inductive SinkItem where
  | accepts (n : Nat)
  | interrupted
  | fatal (msg : String)
deriving DecidableEq, Repr

/-- Result of one `poll_fill`/`poll_drain` attempt, mirroring
`Poll<io::Result<usize>>` as matched by the worker loops. -/
inductive PollResult where
  | readyOk (n : Nat)
  | readyErrInterrupted
  | readyErrOther (msg : String)
  | pending
deriving DecidableEq, Repr

/-- Modelled from the spec: `Writer::poll_fill(cx, source)` of the piper
crate, as driven by the reader worker.  When the pipe has no room the call
is `Pending` (the worker must wait for the consumer to drain); otherwise the
next blocking read of the source runs: a chunk is buffered up to the free
room (any unconsumed remainder stays at the head of the source), end of
stream yields `Ok(0)`, and errors are passed through. -/
def poll_fill (p : Pipe) (src : List SourceItem) :
    Pipe × List SourceItem × PollResult :=
  if p.cap ≤ p.buf.length then (p, src, PollResult.pending)
  else
    match src with
    | [] => (p, [], PollResult.readyOk 0)
    | SourceItem.chunk bs :: rest =>
        let room := p.cap - p.buf.length
        let moved := bs.take room
        let leftover := bs.drop room
        ({ cap := p.cap, buf := p.buf ++ moved },
         (if leftover.isEmpty then rest else SourceItem.chunk leftover :: rest),
         PollResult.readyOk moved.length)
    | SourceItem.interrupted :: rest => (p, rest, PollResult.readyErrInterrupted)
    | SourceItem.fatal m :: rest => (p, rest, PollResult.readyErrOther m)

/-- Modelled from the spec: `Reader::poll_drain(cx, sink)` of the piper
crate, as driven by the writer worker.  When the pipe is empty the call is
`Pending`; otherwise the next blocking write of the sink runs: it consumes
up to what the sink accepts (`Ok(0)` when it accepts nothing), and errors
are passed through. -/
def poll_drain (p : Pipe) (sink : List SinkItem) :
    Pipe × List SinkItem × PollResult :=
  if p.buf.isEmpty then (p, sink, PollResult.pending)
  else
    match sink with
    | [] => (p, [], PollResult.readyOk 0)
    | SinkItem.accepts n :: rest =>
        let moved := min n p.buf.length
        ({ cap := p.cap, buf := p.buf.drop moved }, rest, PollResult.readyOk moved)
    | SinkItem.interrupted :: rest => (p, rest, PollResult.readyErrInterrupted)
    | SinkItem.fatal m :: rest => (p, rest, PollResult.readyErrOther m)

/-- Interest binding consulted by the workers (struct `Interest`,
blocking.rs lines 14-20): the event to post about completion and the poller
(identified by a number) to post it to. -/
structure Interest where
  event : Event
  poller : Nat
deriving DecidableEq, Repr

/-- Fate of one worker-loop iteration: loop again (`continue`), return from
the thread, or park awaiting a wake. -/
inductive WorkerAction where
  | continueLoop
  | terminate
  | park
deriving DecidableEq, Repr

/-- Effects and resulting state of one reader-worker iteration: updated pipe
and source, the loop fate, the completion packets handed to `poller.post`,
and the log lines emitted. -/
structure ReaderStep where
  pipe : Pipe
  src : List SourceItem
  action : WorkerAction
  posted : List Event
  logs : List String
deriving DecidableEq, Repr

/-- Effects and resulting state of one writer-worker iteration. -/
structure WriterStep where
  pipe : Pipe
  sink : List SinkItem
  action : WorkerAction
  posted : List Event
  logs : List String
deriving DecidableEq, Repr

/-- Shallow embedding of one iteration of the reader worker loop
(blocking.rs lines 50-93): perform a fill attempt and dispatch on its result
exactly as the `match` in the source does.  `postOk` tells whether
`poller.post` succeeds when called; `posted` records the packets handed to
`post` (on `Ok(n > 0)` with a registered readable interest), and a failing
post only adds a log line. -/
def readerStep (interest : Option Interest) (postOk : Bool) (p : Pipe)
    (src : List SourceItem) : ReaderStep :=
  match poll_fill p src with
  | (p', src', PollResult.readyOk 0) =>
      { pipe := p', src := src', action := WorkerAction.terminate,
        posted := [], logs := [] }
  | (p', src', PollResult.readyOk (_ + 1)) =>
      match interest with
      | some i =>
          if i.event.readable then
            { pipe := p', src := src', action := WorkerAction.continueLoop,
              posted := [i.event],
              logs := if postOk then [] else ["error sending completion packet"] }
          else
            { pipe := p', src := src', action := WorkerAction.continueLoop,
              posted := [], logs := [] }
      | none =>
          { pipe := p', src := src', action := WorkerAction.continueLoop,
            posted := [], logs := [] }
  | (p', src', PollResult.readyErrInterrupted) =>
      { pipe := p', src := src', action := WorkerAction.continueLoop,
        posted := [], logs := [] }
  | (p', src', PollResult.readyErrOther m) =>
      { pipe := p', src := src', action := WorkerAction.terminate,
        posted := [], logs := ["error writing to pipe: " ++ m] }
  | (p', src', PollResult.pending) =>
      { pipe := p', src := src', action := WorkerAction.park,
        posted := [], logs := [] }

/-- Shallow embedding of one iteration of the writer worker loop
(blocking.rs lines 153-196), symmetric to the reader: a drain attempt, with
the interest consulted for a writable event. -/
def writerStep (interest : Option Interest) (postOk : Bool) (p : Pipe)
    (sink : List SinkItem) : WriterStep :=
  match poll_drain p sink with
  | (p', sink', PollResult.readyOk 0) =>
      { pipe := p', sink := sink', action := WorkerAction.terminate,
        posted := [], logs := [] }
  | (p', sink', PollResult.readyOk (_ + 1)) =>
      match interest with
      | some i =>
          if i.event.writable then
            { pipe := p', sink := sink', action := WorkerAction.continueLoop,
              posted := [i.event],
              logs := if postOk then [] else ["error sending completion packet"] }
          else
            { pipe := p', sink := sink', action := WorkerAction.continueLoop,
              posted := [], logs := [] }
      | none =>
          { pipe := p', sink := sink', action := WorkerAction.continueLoop,
            posted := [], logs := [] }
  | (p', sink', PollResult.readyErrInterrupted) =>
      { pipe := p', sink := sink', action := WorkerAction.continueLoop,
        posted := [], logs := [] }
  | (p', sink', PollResult.readyErrOther m) =>
      { pipe := p', sink := sink', action := WorkerAction.terminate,
        posted := [], logs := ["error writing to pipe: " ++ m] }
  | (p', sink', PollResult.pending) =>
      { pipe := p', sink := sink', action := WorkerAction.park,
        posted := [], logs := [] }

/-- Whether the reader worker thread is still looping, parked in
`thread::park()`, or has returned. -/
inductive WorkerStatus where
  | running
  | parked
  | terminated
deriving DecidableEq, Repr

/-- State of an unblocked-reader instance as seen across iterations: the
pipe shared by worker and consumer, the remaining source behaviour, and the
worker thread's status. -/
structure ReaderState where
  pipe : Pipe
  src : List SourceItem
  status : WorkerStatus
deriving DecidableEq, Repr

/-- Status the worker ends an iteration in, for each loop fate. -/
def statusAfter : WorkerAction → WorkerStatus
  | WorkerAction.continueLoop => WorkerStatus.running
  | WorkerAction.terminate => WorkerStatus.terminated
  | WorkerAction.park => WorkerStatus.parked

/-- Run the reader worker loop for up to `fuel` iterations, or until the
thread terminates or parks, collecting the completion packets posted along
the way. -/
def runReader (interest : Option Interest) (postOk : Bool) :
    Nat → ReaderState → ReaderState × List Event
  | 0, st => (st, [])
  | Nat.succ fuel, st =>
      match st.status with
      | WorkerStatus.terminated => (st, [])
      | WorkerStatus.parked => (st, [])
      | WorkerStatus.running =>
          let step := readerStep interest postOk st.pipe st.src
          match step.action with
          | WorkerAction.continueLoop =>
              let rest := runReader interest postOk fuel
                { pipe := step.pipe, src := step.src, status := WorkerStatus.running }
              (rest.1, step.posted ++ rest.2)
          | a =>
              ({ pipe := step.pipe, src := step.src, status := statusAfter a },
               step.posted)

/-- An operation observable at an unblocked reader after some point in time:
either the worker thread performs a loop iteration (a parked worker may be
woken at any time by the consumer's drain, so it is treated as runnable; a
terminated worker does nothing), or the consumer calls `try_read` with a
buffer of the given size. -/
inductive ConsumerOp where
  | workerStep
  | tryRead (bufsize : Nat)
deriving DecidableEq, Repr

/-- Execute an interleaving of worker iterations and consumer `try_read`
calls, returning the final state and the list of byte counts the `try_read`
calls returned, in order. -/
def execOps (interest : Option Interest) (postOk : Bool) :
    List ConsumerOp → ReaderState → ReaderState × List Nat
  | [], st => (st, [])
  | ConsumerOp.workerStep :: ops, st =>
      match st.status with
      | WorkerStatus.terminated => execOps interest postOk ops st
      | _ =>
          let step := readerStep interest postOk st.pipe st.src
          execOps interest postOk ops
            { pipe := step.pipe, src := step.src, status := statusAfter step.action }
  | ConsumerOp.tryRead n :: ops, st =>
      let drained := st.pipe.try_drain n
      let rest := execOps interest postOk ops { st with pipe := drained.1 }
      (rest.1, (drained.2).length :: rest.2)

/-- Outcome of calling a Rust constructor: a value returned normally, an
error value returned normally, or a panic (the constructor aborts and
returns nothing at all). -/
inductive CtorOutcome (α : Type) where
  | ok (val : α)
  | err (msg : String)
  | panicked (msg : String)
deriving DecidableEq, Repr

/-- Whether the outcome is a normally returned value. -/
def CtorOutcome.isOk {α : Type} : CtorOutcome α → Bool
  | CtorOutcome.ok _ => true
  | _ => false

/-- Whether the outcome is a normally returned error value. -/
def CtorOutcome.isErr {α : Type} : CtorOutcome α → Bool
  | CtorOutcome.err _ => true
  | _ => false

/-- Consumer-side handle of an unblocked reader (struct `UnblockedReader`,
blocking.rs lines 23-32): the shared interest binding and the drain half of
the pipe. -/
structure UnblockedReader where
  interest : Option Interest
  pipe : Pipe
deriving DecidableEq, Repr

/-- Consumer-side handle of an unblocked writer (struct `UnblockedWriter`,
blocking.rs lines 126-135). -/
structure UnblockedWriter where
  interest : Option Interest
  pipe : Pipe
deriving DecidableEq, Repr

/-- Shallow embedding of `UnblockedReader::new` (blocking.rs lines 36-99).
The call first constructs the pipe, then spawns the worker thread with
`.expect("failed to spawn reader thread")` (line 96) and returns `Self` —
the signature has no error alternative at all.  The pipe constructor is
external (piper crate); modelled from the spec: "Zero-length capacity is
invalid (construction error)" — it aborts construction, and since the
in-repo constructor returns `Self`, the abort can only be a panic, like the
`expect` on a failed thread spawn.  `spawnOk` tells whether the OS can spawn
the thread. -/
def UnblockedReader.new (pipe_capacity : Nat) (spawnOk : Bool) :
    CtorOutcome UnblockedReader :=
  if pipe_capacity = 0 then CtorOutcome.panicked "pipe capacity must be positive"
  else if spawnOk then
    CtorOutcome.ok { interest := none, pipe := { cap := pipe_capacity, buf := [] } }
  else CtorOutcome.panicked "failed to spawn reader thread"

/-- Shallow embedding of `UnblockedWriter::new` (blocking.rs lines 139-202),
with the same structure as the reader's constructor; the `expect` message at
line 199 names the writer thread. -/
def UnblockedWriter.new (pipe_capacity : Nat) (spawnOk : Bool) :
    CtorOutcome UnblockedWriter :=
  if pipe_capacity = 0 then CtorOutcome.panicked "pipe capacity must be positive"
  else if spawnOk then
    CtorOutcome.ok { interest := none, pipe := { cap := pipe_capacity, buf := [] } }
  else CtorOutcome.panicked "failed to spawn writer thread"

/-- Shallow embedding of `UnblockedReader::try_read` (blocking.rs lines
114-116): drain whatever is buffered into the caller's buffer of the given
size, returning the updated handle and the bytes read. -/
def UnblockedReader.try_read (r : UnblockedReader) (bufsize : Nat) :
    UnblockedReader × List Nat :=
  let drained := r.pipe.try_drain bufsize
  ({ r with pipe := drained.1 }, drained.2)

/-- Shallow embedding of `UnblockedWriter::try_write` (blocking.rs lines
217-219): buffer as much of the caller's bytes as fit, returning the
updated handle and the count buffered. -/
def UnblockedWriter.try_write (w : UnblockedWriter) (buf : List Nat) :
    UnblockedWriter × Nat :=
  let filled := w.pipe.try_fill buf
  ({ w with pipe := filled.1 }, filled.2)

/-- Claim C4: a worker hands a completion packet to `poller.post` only when,
at the moment it consults the binding after a completed batch, an interest
is registered and its event matches the worker's direction — readable for
the reader, writable for the writer.  With no registered interest, or a
non-matching one, no packet is posted. -/
theorem packet_only_with_matching_interest
    (interest : Option Interest) (postOk : Bool) (p q : Pipe)
    (src : List SourceItem) (sink : List SinkItem) :
    ((readerStep interest postOk p src).posted ≠ [] →
      ∃ i, interest = some i ∧ i.event.readable = true) ∧
    ((writerStep interest postOk q sink).posted ≠ [] →
      ∃ i, interest = some i ∧ i.event.writable = true) := by
  constructor
  · intro h
    match interest with
    | none =>
        exfalso
        apply h
        unfold readerStep
        split <;> simp
    | some i =>
        refine ⟨i, rfl, ?_⟩
        by_contra hro
        rw [Bool.not_eq_true] at hro
        apply h
        unfold readerStep
        split <;> simp_all
  · intro h
    match interest with
    | none =>
        exfalso
        apply h
        unfold writerStep
        split <;> simp
    | some i =>
        refine ⟨i, rfl, ?_⟩
        by_contra hwo
        rw [Bool.not_eq_true] at hwo
        apply h
        unfold writerStep
        split <;> simp_all

/-- Witness for C4 at concrete inputs: a completed read with a registered
readable interest, and a completed write with a registered writable
interest, each posting a packet. -/
theorem packet_only_with_matching_interest_witness :
    (∃ i, (some { event := readableEvent 3, poller := 0 } : Option Interest) = some i ∧
      i.event.readable = true) ∧
    (∃ i, (some { event := writableEvent 3, poller := 0 } : Option Interest) = some i ∧
      i.event.writable = true) :=
  ⟨(packet_only_with_matching_interest (some { event := readableEvent 3, poller := 0 })
      true { cap := 4, buf := [] } { cap := 4, buf := [] }
      [SourceItem.chunk [9]] []).1 (by decide),
   (packet_only_with_matching_interest (some { event := writableEvent 3, poller := 0 })
      true { cap := 4, buf := [] } { cap := 4, buf := [9] }
      [] [SinkItem.accepts 4]).2 (by decide)⟩

/-- Claim C5: an interrupted OS error makes the worker retry at once — the
iteration continues the loop, posts nothing and logs nothing; any other OS
error makes the worker log it and return from its thread, again posting
nothing.  In neither case does an error value reach the consumer surface:
`try_read`/`try_write` return only byte counts and the posted packets carry
no error. -/
theorem worker_error_handling
    (interest : Option Interest) (postOk : Bool) (p q : Pipe)
    (src : List SourceItem) (sink : List SinkItem) (m : String) :
    ((poll_fill p src).2.2 = PollResult.readyErrInterrupted →
      readerStep interest postOk p src =
        { pipe := (poll_fill p src).1, src := (poll_fill p src).2.1,
          action := WorkerAction.continueLoop, posted := [], logs := [] }) ∧
    ((poll_fill p src).2.2 = PollResult.readyErrOther m →
      readerStep interest postOk p src =
        { pipe := (poll_fill p src).1, src := (poll_fill p src).2.1,
          action := WorkerAction.terminate, posted := [],
          logs := ["error writing to pipe: " ++ m] }) ∧
    ((poll_drain q sink).2.2 = PollResult.readyErrInterrupted →
      writerStep interest postOk q sink =
        { pipe := (poll_drain q sink).1, sink := (poll_drain q sink).2.1,
          action := WorkerAction.continueLoop, posted := [], logs := [] }) ∧
    ((poll_drain q sink).2.2 = PollResult.readyErrOther m →
      writerStep interest postOk q sink =
        { pipe := (poll_drain q sink).1, sink := (poll_drain q sink).2.1,
          action := WorkerAction.terminate, posted := [],
          logs := ["error writing to pipe: " ++ m] }) := by
  rcases hpf : poll_fill p src with ⟨p', src', r⟩
  rcases hpd : poll_drain q sink with ⟨q', sink', w⟩
  refine ⟨?_, ?_, ?_, ?_⟩ <;> intro h <;> simp only at h <;> subst h <;>
    simp [readerStep, writerStep, hpf, hpd]

/-- Witness for C5 at concrete inputs: interrupted and fatal errors for both
the reader and the writer worker. -/
theorem worker_error_handling_witness :
    readerStep none true { cap := 4, buf := [] } [SourceItem.interrupted] =
      { pipe := { cap := 4, buf := [] }, src := [],
        action := WorkerAction.continueLoop, posted := [], logs := [] } ∧
    readerStep none true { cap := 4, buf := [] } [SourceItem.fatal "boom"] =
      { pipe := { cap := 4, buf := [] }, src := [],
        action := WorkerAction.terminate, posted := [],
        logs := ["error writing to pipe: " ++ "boom"] } ∧
    writerStep none true { cap := 4, buf := [5] } [SinkItem.interrupted] =
      { pipe := { cap := 4, buf := [5] }, sink := [],
        action := WorkerAction.continueLoop, posted := [], logs := [] } ∧
    writerStep none true { cap := 4, buf := [5] } [SinkItem.fatal "boom"] =
      { pipe := { cap := 4, buf := [5] }, sink := [],
        action := WorkerAction.terminate, posted := [],
        logs := ["error writing to pipe: " ++ "boom"] } :=
  ⟨(worker_error_handling none true { cap := 4, buf := [] } { cap := 4, buf := [] }
      [SourceItem.interrupted] [] "boom").1 (by decide),
   (worker_error_handling none true { cap := 4, buf := [] } { cap := 4, buf := [] }
      [SourceItem.fatal "boom"] [] "boom").2.1 (by decide),
   (worker_error_handling none true { cap := 4, buf := [] } { cap := 4, buf := [5] }
      [] [SinkItem.interrupted] "boom").2.2.1 (by decide),
   (worker_error_handling none true { cap := 4, buf := [] } { cap := 4, buf := [5] }
      [] [SinkItem.fatal "boom"] "boom").2.2.2 (by decide)⟩

/-- Claim C8: when posting the completion packet fails, the worker logs the
failure and continues unchanged: the iteration's fate is `continue`, and the
pipe and remaining source/sink are exactly what they are when posting
succeeds, so all subsequent fills/drains proceed as if the post had
worked. -/
theorem post_failure_swallowed
    (i : Interest) (p q : Pipe) (src : List SourceItem) (sink : List SinkItem)
    (k : Nat) :
    ((poll_fill p src).2.2 = PollResult.readyOk (k + 1) → i.event.readable = true →
      (readerStep (some i) false p src).action = WorkerAction.continueLoop ∧
      (readerStep (some i) false p src).pipe = (readerStep (some i) true p src).pipe ∧
      (readerStep (some i) false p src).src = (readerStep (some i) true p src).src ∧
      (readerStep (some i) false p src).posted = (readerStep (some i) true p src).posted ∧
      (readerStep (some i) false p src).logs = ["error sending completion packet"]) ∧
    ((poll_drain q sink).2.2 = PollResult.readyOk (k + 1) → i.event.writable = true →
      (writerStep (some i) false q sink).action = WorkerAction.continueLoop ∧
      (writerStep (some i) false q sink).pipe = (writerStep (some i) true q sink).pipe ∧
      (writerStep (some i) false q sink).sink = (writerStep (some i) true q sink).sink ∧
      (writerStep (some i) false q sink).posted = (writerStep (some i) true q sink).posted ∧
      (writerStep (some i) false q sink).logs = ["error sending completion packet"]) := by
  rcases hpf : poll_fill p src with ⟨p', src', r⟩
  rcases hpd : poll_drain q sink with ⟨q', sink', w⟩
  constructor
  · intro h hro
    simp only at h
    subst h
    simp [readerStep, hpf, hro]
  · intro h hwo
    simp only at h
    subst h
    simp [writerStep, hpd, hwo]

/-- Witness for C8 at concrete inputs: a failing post after a completed read
and after a completed write. -/
theorem post_failure_swallowed_witness :
    ((readerStep (some { event := readableEvent 3, poller := 0 }) false
        { cap := 4, buf := [] } [SourceItem.chunk [9]]).action =
      WorkerAction.continueLoop ∧
     (readerStep (some { event := readableEvent 3, poller := 0 }) false
        { cap := 4, buf := [] } [SourceItem.chunk [9]]).pipe =
      (readerStep (some { event := readableEvent 3, poller := 0 }) true
        { cap := 4, buf := [] } [SourceItem.chunk [9]]).pipe ∧
     (readerStep (some { event := readableEvent 3, poller := 0 }) false
        { cap := 4, buf := [] } [SourceItem.chunk [9]]).src =
      (readerStep (some { event := readableEvent 3, poller := 0 }) true
        { cap := 4, buf := [] } [SourceItem.chunk [9]]).src ∧
     (readerStep (some { event := readableEvent 3, poller := 0 }) false
        { cap := 4, buf := [] } [SourceItem.chunk [9]]).posted =
      (readerStep (some { event := readableEvent 3, poller := 0 }) true
        { cap := 4, buf := [] } [SourceItem.chunk [9]]).posted ∧
     (readerStep (some { event := readableEvent 3, poller := 0 }) false
        { cap := 4, buf := [] } [SourceItem.chunk [9]]).logs =
      ["error sending completion packet"]) ∧
    ((writerStep (some { event := writableEvent 3, poller := 0 }) false
        { cap := 4, buf := [9] } [SinkItem.accepts 4]).action =
      WorkerAction.continueLoop ∧
     (writerStep (some { event := writableEvent 3, poller := 0 }) false
        { cap := 4, buf := [9] } [SinkItem.accepts 4]).pipe =
      (writerStep (some { event := writableEvent 3, poller := 0 }) true
        { cap := 4, buf := [9] } [SinkItem.accepts 4]).pipe ∧
     (writerStep (some { event := writableEvent 3, poller := 0 }) false
        { cap := 4, buf := [9] } [SinkItem.accepts 4]).sink =
      (writerStep (some { event := writableEvent 3, poller := 0 }) true
        { cap := 4, buf := [9] } [SinkItem.accepts 4]).sink ∧
     (writerStep (some { event := writableEvent 3, poller := 0 }) false
        { cap := 4, buf := [9] } [SinkItem.accepts 4]).posted =
      (writerStep (some { event := writableEvent 3, poller := 0 }) true
        { cap := 4, buf := [9] } [SinkItem.accepts 4]).posted ∧
     (writerStep (some { event := writableEvent 3, poller := 0 }) false
        { cap := 4, buf := [9] } [SinkItem.accepts 4]).logs =
      ["error sending completion packet"]) :=
  ⟨(post_failure_swallowed { event := readableEvent 3, poller := 0 }
      { cap := 4, buf := [] } { cap := 4, buf := [9] }
      [SourceItem.chunk [9]] [SinkItem.accepts 4] 0).1 (by decide) (by decide),
   (post_failure_swallowed { event := writableEvent 3, poller := 0 }
      { cap := 4, buf := [] } { cap := 4, buf := [9] }
      [SourceItem.chunk [9]] [SinkItem.accepts 4] 0).2 (by decide) (by decide)⟩

/-- Counterexample to claim C7 as stated: when spawning the worker thread
fails, neither constructor returns an error value — the `expect` calls at
blocking.rs lines 96 and 199 panic instead, so the outcome is never an
error result. -/
theorem spawn_failure_not_error_result :
    (UnblockedReader.new 1 false).isErr = false ∧
    (UnblockedWriter.new 1 false).isErr = false := by
  decide

/-- Claim C7 amended: a failed thread spawn aborts the constructor with a
panic — surfaced synchronously, but as a panic, not as a returned error
value; no object, partial or otherwise, is returned to the caller. -/
theorem spawn_failure_panics_no_partial (cap : Nat) :
    (UnblockedReader.new cap false).isOk = false ∧
    (∃ m, UnblockedReader.new cap false = CtorOutcome.panicked m) ∧
    (UnblockedWriter.new cap false).isOk = false ∧
    (∃ m, UnblockedWriter.new cap false = CtorOutcome.panicked m) := by
  unfold UnblockedReader.new UnblockedWriter.new
  by_cases h : cap = 0 <;> simp [h, CtorOutcome.isOk]

/-- Counterexample to claim C9 as stated: a capacity of zero does not
produce a construction error value — the constructors' return type `Self`
has no error alternative, and the pipe constructor aborts by panic. -/
theorem zero_capacity_not_error_result :
    (UnblockedReader.new 0 true).isErr = false ∧
    (UnblockedWriter.new 0 true).isErr = false := by
  decide

/-- Claim C9 amended: a capacity of zero is invalid and never yields a
usable object — construction aborts with a panic in the pipe constructor
(before the thread spawn is even attempted) rather than returning a
construction error. -/
theorem zero_capacity_panics (spawnOk : Bool) :
    (UnblockedReader.new 0 spawnOk).isOk = false ∧
    UnblockedReader.new 0 spawnOk = CtorOutcome.panicked "pipe capacity must be positive" ∧
    (UnblockedWriter.new 0 spawnOk).isOk = false ∧
    UnblockedWriter.new 0 spawnOk = CtorOutcome.panicked "pipe capacity must be positive" := by
  simp [UnblockedReader.new, UnblockedWriter.new, CtorOutcome.isOk]

/-- Helper: a terminated worker stays terminated under any interleaving of
operations. -/
theorem execOps_keeps_terminated (interest : Option Interest) (postOk : Bool)
    (ops : List ConsumerOp) (st : ReaderState)
    (h : st.status = WorkerStatus.terminated) :
    (execOps interest postOk ops st).1.status = WorkerStatus.terminated := by
  induction ops generalizing st with
  | nil => simpa [execOps] using h
  | cons op ops ih =>
      cases op with
      | workerStep =>
          obtain ⟨pipe, src, status⟩ := st
          simp only at h
          subst h
          simpa [execOps] using ih _ rfl
      | tryRead n =>
          simp only [execOps]
          exact ih _ (by simpa using h)

/-- Helper: from a terminated worker with an empty pipe, any interleaving of
operations leaves the state unchanged and every `try_read` in it returns
zero bytes. -/
theorem execOps_terminated_empty (interest : Option Interest) (postOk : Bool)
    (ops : List ConsumerOp) (st : ReaderState)
    (hterm : st.status = WorkerStatus.terminated) (hbuf : st.pipe.buf = []) :
    (execOps interest postOk ops st).1 = st ∧
    ∀ c ∈ (execOps interest postOk ops st).2, c = 0 := by
  induction ops generalizing st with
  | nil => simp [execOps]
  | cons op ops ih =>
      cases op with
      | workerStep =>
          obtain ⟨⟨cap, buf⟩, src, status⟩ := st
          simp only at hterm hbuf
          subst hterm
          subst hbuf
          simpa [execOps] using ih _ rfl rfl
      | tryRead n =>
          obtain ⟨⟨cap, buf⟩, src, status⟩ := st
          simp only at hterm hbuf
          subst hterm
          subst hbuf
          have := ih ⟨⟨cap, []⟩, src, WorkerStatus.terminated⟩ rfl rfl
          simpa [execOps, Pipe.try_drain] using this

/-- Claim C3: a fill attempt completing with a zero byte count makes the
reader worker return from its thread (permanent end-of-stream); and from
any terminated worker state, once the pipe has been drained empty, every
subsequent `try_read`, under any further interleaving of worker steps and
`try_read` calls, returns 0 — a nonzero count never reappears. -/
theorem reader_eof_terminates_then_silent :
    (∀ (interest : Option Interest) (postOk : Bool) (p : Pipe)
        (src : List SourceItem),
      (poll_fill p src).2.2 = PollResult.readyOk 0 →
      (readerStep interest postOk p src).action = WorkerAction.terminate) ∧
    (∀ (interest : Option Interest) (postOk : Bool) (st : ReaderState)
        (ops1 ops2 : List ConsumerOp),
      st.status = WorkerStatus.terminated →
      (execOps interest postOk ops1 st).1.pipe.buf = [] →
      ∀ c ∈ (execOps interest postOk ops2 (execOps interest postOk ops1 st).1).2,
        c = 0) := by
  constructor
  · intro interest postOk p src h
    rcases hpf : poll_fill p src with ⟨p', src', r⟩
    rw [hpf] at h
    simp only at h
    subst h
    simp [readerStep, hpf]
  · intro interest postOk st ops1 ops2 hterm hdrained
    have hterm1 := execOps_keeps_terminated interest postOk ops1 st hterm
    exact (execOps_terminated_empty interest postOk ops2 _ hterm1 hdrained).2

/-- Witness for C3 at concrete inputs: a source at end-of-stream terminates
the worker, and after draining a terminated reader every later `try_read`
returns 0. -/
theorem reader_eof_terminates_then_silent_witness :
    (readerStep none true { cap := 4, buf := [] } []).action =
      WorkerAction.terminate ∧
    ∀ c ∈ (execOps none true [ConsumerOp.tryRead 4, ConsumerOp.workerStep,
        ConsumerOp.tryRead 2]
      (execOps none true [ConsumerOp.tryRead 4]
        { pipe := { cap := 4, buf := [1] }, src := [],
          status := WorkerStatus.terminated }).1).2, c = 0 :=
  ⟨reader_eof_terminates_then_silent.1 none true { cap := 4, buf := [] } []
    (by decide),
   reader_eof_terminates_then_silent.2 none true
    { pipe := { cap := 4, buf := [1] }, src := [], status := WorkerStatus.terminated }
    [ConsumerOp.tryRead 4]
    [ConsumerOp.tryRead 4, ConsumerOp.workerStep, ConsumerOp.tryRead 2]
    (by decide) (by decide)⟩

/-- Helper: after a fill that moved a positive number of bytes, the reader
iteration continues the loop and carries exactly the pipe and source state
the fill produced, whatever the interest binding and post outcome. -/
theorem readerStep_ok_pos (interest : Option Interest) (postOk : Bool)
    (p p' : Pipe) (src src' : List SourceItem) (n : Nat)
    (hpf : poll_fill p src = (p', src', PollResult.readyOk n)) (hn : n ≠ 0) :
    (readerStep interest postOk p src).pipe = p' ∧
    (readerStep interest postOk p src).src = src' ∧
    (readerStep interest postOk p src).action = WorkerAction.continueLoop := by
  obtain ⟨k, rfl⟩ := Nat.exists_eq_succ_of_ne_zero hn
  unfold readerStep
  rw [hpf]
  cases interest with
  | none => exact ⟨rfl, rfl, rfl⟩
  | some i => by_cases h : i.event.readable <;> simp [h]

/-- Helper: starting from a running worker and a source of nonempty chunks
whose total, together with what is already buffered, fits the capacity, the
worker transfers every chunk into the pipe in order within one iteration
per chunk. -/
theorem runReader_fills (interest : Option Interest) (postOk : Bool) (C : Nat) :
    ∀ (chunks : List (List Nat)) (buf : List Nat),
      buf.length + (chunks.flatten).length ≤ C →
      (∀ c ∈ chunks, c ≠ []) →
      (runReader interest postOk (chunks.length + 1)
        { pipe := { cap := C, buf := buf }, src := chunks.map SourceItem.chunk,
          status := WorkerStatus.running }).1.pipe =
        { cap := C, buf := buf ++ chunks.flatten } := by
  intro chunks
  induction chunks with
  | nil =>
      intro buf _ _
      by_cases hfull : C ≤ buf.length <;>
        simp [runReader, readerStep, poll_fill, hfull]
  | cons c rest ih =>
      intro buf hlen hne
      have hc : c ≠ [] := hne c (List.mem_cons_self c rest)
      have hcpos : 0 < c.length := List.length_pos.mpr hc
      have hflat : ((c :: rest).flatten).length = c.length + (rest.flatten).length := by
        simp
      have hnotfull : ¬ C ≤ buf.length := by omega
      have hroom : c.length ≤ C - buf.length := by omega
      have htake : c.take (C - buf.length) = c := List.take_of_length_le hroom
      have hdrop : c.drop (C - buf.length) = [] := List.drop_eq_nil_of_le hroom
      have hpf : poll_fill { cap := C, buf := buf }
          ((c :: rest).map SourceItem.chunk) =
          ({ cap := C, buf := buf ++ c }, rest.map SourceItem.chunk,
            PollResult.readyOk c.length) := by
        simp [poll_fill, hnotfull, htake, hdrop]
      obtain ⟨hp, hs, ha⟩ := readerStep_ok_pos interest postOk _ _ _ _ _ hpf
        (Nat.pos_iff_ne_zero.mp hcpos)
      have hstep : runReader interest postOk ((c :: rest).length + 1)
          { pipe := { cap := C, buf := buf },
            src := (c :: rest).map SourceItem.chunk,
            status := WorkerStatus.running } =
          (let rest' := runReader interest postOk (rest.length + 1)
            { pipe := (readerStep interest postOk { cap := C, buf := buf }
                ((c :: rest).map SourceItem.chunk)).pipe,
              src := (readerStep interest postOk { cap := C, buf := buf }
                ((c :: rest).map SourceItem.chunk)).src,
              status := WorkerStatus.running }
           (rest'.1,
            (readerStep interest postOk { cap := C, buf := buf }
              ((c :: rest).map SourceItem.chunk)).posted ++ rest'.2)) := by
        simp only [List.length_cons]
        rw [runReader]
        simp only [ha]
      rw [hstep]
      simp only [hp, hs]
      have hrest := ih (buf ++ c) (by simp at hlen ⊢; omega)
        (fun x hx => hne x (List.mem_cons_of_mem c hx))
      simp only [hrest, List.flatten_cons, List.append_assoc]

/-- Claim C2: with capacity `C` and a blocking source producing chunks that
total at most `C` bytes, once the worker loop has transferred them, a
`try_read` with a buffer at least that large returns exactly those bytes in
the order the source produced them. -/
theorem reader_transfers_bytes_in_order
    (interest : Option Interest) (postOk : Bool) (C n : Nat)
    (chunks : List (List Nat))
    (htot : (chunks.flatten).length ≤ C)
    (hne : ∀ c ∈ chunks, c ≠ [])
    (hn : (chunks.flatten).length ≤ n) :
    (UnblockedReader.try_read
        { interest := interest,
          pipe := (runReader interest postOk (chunks.length + 1)
            { pipe := { cap := C, buf := [] },
              src := chunks.map SourceItem.chunk,
              status := WorkerStatus.running }).1.pipe }
        n).2 = chunks.flatten := by
  have hfill := runReader_fills interest postOk C chunks [] (by simpa using htot) hne
  simp [UnblockedReader.try_read, Pipe.try_drain, hfill, List.take_of_length_le hn]

/-- Witness for C2 at a concrete input: capacity 4, source chunks
`[1, 2]` then `[3]`, read back with a buffer of 4. -/
theorem reader_transfers_bytes_in_order_witness :
    (UnblockedReader.try_read
        { interest := none,
          pipe := (runReader none true (([[1, 2], [3]] : List (List Nat)).length + 1)
            { pipe := { cap := 4, buf := [] },
              src := ([[1, 2], [3]] : List (List Nat)).map SourceItem.chunk,
              status := WorkerStatus.running }).1.pipe }
        4).2 = ([[1, 2], [3]] : List (List Nat)).flatten :=
  reader_transfers_bytes_in_order none true 4 4 [[1, 2], [3]]
    (by decide) (by decide) (by decide)

end Alacritty
